import Mathlib

/-!
Verification of the twinfoundation/background-task repository.

The development shallowly embeds the pure state transitions of
`EntityStorageBackgroundTaskConnector` (create / cancel / retry /
processTask / cleanupRetained / calculateRetainTimestamp /
mapEntityToModel) and of `TaskScheduler`
(calculateNextTriggerTime / triggerScheduledTasks).

Modelling conventions:
* ISO-8601 date strings are represented by their epoch-millisecond value
  as an `Int` (the code always converts with `new Date(s).getTime()` and
  `new Date(ms).toISOString()`, which round-trip on the millisecond).
* The entity store is a list of task records; `set` replaces the record
  with a matching id (or appends), `remove` deletes by id.
* Optional fields are `Option`; `undefined`/`delete` is `none`.
* The external `@twin.org/core` helpers are given the semantics their
  documentation states: `Is.integer` on an optional integer field is
  `Option.isSome`, `BaseError.fromError(e).toJsonObject()` is the
  identity on an already structured error object.
-/

namespace BackgroundTaskSpec

/-- Task statuses, mirroring `taskStatus.ts`. -/
inductive TaskStatus where
| pending
| processing
| success
| failed
| cancelled
deriving DecidableEq

/-- Structured error (`IError` from the core package): name, source,
message and an optional inner cause, which may itself nest. -/
inductive IErr where
| mk (name : String) (source : String) (message : String) (inner : Option IErr)

/-- The error name. -/
def IErr.name : IErr → String
| .mk n _ _ _ => n

/-- The error source. -/
def IErr.source : IErr → String
| .mk _ s _ _ => s

/-- The error message key. -/
def IErr.message : IErr → String
| .mk _ _ m _ => m

/-- The inner cause of the error, when present. -/
def IErr.inner : IErr → Option IErr
| .mk _ _ _ i => i

/-- Opaque payload / result values. -/
abbrev Val := String

/-- The persisted `BackgroundTask` entity (`entities/backgroundTask.ts`).
Date fields hold the epoch-millisecond value of the ISO string. -/
structure BackgroundTask where
  id : String
  type : String
  retryInterval : Option Int
  retriesRemaining : Option Int
  dateCreated : Int
  dateModified : Int
  dateNextProcess : Option Int
  dateCancelled : Option Int
  dateCompleted : Option Int
  retainFor : Option Int
  retainUntil : Option Int
  status : TaskStatus
  payload : Option Val
  result : Option Val
  error : Option IErr

/-- The entity store: a list of task records keyed by `id`. -/
abbrev Store := List BackgroundTask

/-- Operation `get(id)` on the entity store. -/
def storeGet (s : Store) (id : String) : Option BackgroundTask :=
  s.find? (fun t => t.id == id)

/-- Operation `set(task)` on the entity store: replace the record with the same id,
or append when absent. -/
def storeSet (s : Store) (t : BackgroundTask) : Store :=
  if s.any (fun u => u.id == t.id) then
    s.map (fun u => if u.id == t.id then t else u)
  else
    s ++ [t]

/-- Operation `remove(id)` on the entity store. -/
def storeRemove (s : Store) (id : String) : Store :=
  s.filter (fun t => !(t.id == id))

/-- Function `calculateRetainTimestamp` (connector lines 615-636): a retain
timestamp is produced only for a task in a completion state with an
integer `retainFor`; positive values retain until
`dateModified + retainFor`, `-1` retains forever. -/
def calculateRetainTimestamp (task : BackgroundTask) : Option Int :=
  if task.status = TaskStatus.success ∨ task.status = TaskStatus.cancelled ∨
      task.status = TaskStatus.failed then
    match task.retainFor with
    | some rf =>
      if rf > 0 then some (task.dateModified + rf)
      else if rf = -1 then some (-1)
      else none
    | none => none
  else none

/-- The retain-timestamp computation as the specification words it
(spec section 4.5), for comparison with `calculateRetainTimestamp`:
none when status is not terminal; none when `retainFor` is absent;
`dateModified + retainFor` when positive; `-1` when `-1`; otherwise
(including 0) none. -/
def specRetainTimestamp (task : BackgroundTask) : Option Int :=
  if ¬(task.status = TaskStatus.success ∨ task.status = TaskStatus.failed ∨
      task.status = TaskStatus.cancelled) then none
  else
    match task.retainFor with
    | none => none
    | some rf =>
      if rf > 0 then some (task.dateModified + rf)
      else if rf = -1 then some (-1)
      else none

/-- The record persisted by `create` (connector lines 337-354):
a pending task with `dateNextProcess = now` and `retainFor`
defaulting to 0. -/
def createRecord (id ty : String) (payload : Option Val)
    (retryCount retryIntervalOpt retainForOpt : Option Int) (now : Int) :
    BackgroundTask where
  id := id
  type := ty
  retryInterval := retryIntervalOpt
  retriesRemaining := retryCount
  dateCreated := now
  dateModified := now
  dateNextProcess := some now
  dateCancelled := none
  dateCompleted := none
  retainFor := some (retainForOpt.getD 0)
  retainUntil := none
  status := TaskStatus.pending
  payload := payload
  result := none
  error := none

/-- Operation `create` (connector lines 293-361): persist the new pending task. -/
def create (store : Store) (id ty : String) (payload : Option Val)
    (retryCount retryIntervalOpt retainForOpt : Option Int) (now : Int) : Store :=
  storeSet store (createRecord id ty payload retryCount retryIntervalOpt retainForOpt now)

/-- The record persisted by `cancel` when it acts (connector lines
467-472): status becomes cancelled, `dateCancelled := now`,
`dateNextProcess` cleared, and `retainUntil` is computed on the already
mutated record; `retainFor` and `dateModified` are left untouched. -/
def cancelRecord (task : BackgroundTask) (now : Int) : BackgroundTask :=
  let t1 := { task with
    status := TaskStatus.cancelled
    dateCancelled := some now
    dateNextProcess := none }
  { t1 with retainUntil := calculateRetainTimestamp t1 }

/-- Operation `cancel` (connector lines 451-474): acts only on a stored task whose
status is pending; otherwise the store is unchanged. -/
def cancel (store : Store) (id : String) (now : Int) : Store :=
  match storeGet store id with
  | some task =>
    if task.status = TaskStatus.pending then
      storeSet store (cancelRecord task now)
    else store
  | none => store

/-- The record persisted by `retry` when it acts (connector lines
415-416): only `dateNextProcess` changes, to the current time. -/
def retryRecord (task : BackgroundTask) (now : Int) : BackgroundTask :=
  { task with dateNextProcess := some now }

/-- Operation `retry` (connector lines 394-418): acts only on a stored task which
is pending with `dateNextProcess` set; it persists the task with
`dateNextProcess := now` and no other change. -/
def retry (store : Store) (id : String) (now : Int) : Store :=
  match storeGet store id with
  | some task =>
    if task.dateNextProcess.isSome ∧ task.status = TaskStatus.pending then
      storeSet store (retryRecord task now)
    else store
  | none => store

/-- The first write of `processTask` (connector lines 704-706): mark the
task processing and bump `dateModified`. -/
def processingWrite (task : BackgroundTask) (now : Int) : BackgroundTask :=
  { task with status := TaskStatus.processing, dateModified := now }

/-- The message key the worker adapter puts on a wrapped handler
exception (`moduleHelper.workerException`). -/
def workerExceptionMessage : String := "moduleHelper.workerException"

/-- The catch block of `processTask` (connector lines 741-747): when the
normalized error is a worker exception carrying an inner cause, unwrap
exactly one level; otherwise keep the error as is. -/
def unwrapWorkerException (e : IErr) : IErr :=
  if e.message = workerExceptionMessage ∧ e.inner.isSome then
    e.inner.getD e
  else e

/-- The outcome of the worker invocation: a result, or the error it
threw. -/
inductive HandlerOutcome where
| ok (result : Val)
| err (e : IErr)

/-- The outcome section of `processTask` (connector lines 731-768),
applied to the record as it stands after the processing write.
On success the result is stored, the task completes and the retry
fields and error are cleared. On error the (possibly unwrapped) error
is stored; with a positive integer `retriesRemaining` the task goes
back to pending with the counter decremented and
`dateNextProcess = dateModified + (retryInterval or the connector
fallback)`, otherwise it fails with `dateCompleted := now`. -/
def applyOutcome (connRetryInterval : Int) (task : BackgroundTask)
    (outcome : HandlerOutcome) (now : Int) : BackgroundTask :=
  match outcome with
  | .ok r =>
    { task with
      result := some r
      status := TaskStatus.success
      dateNextProcess := none
      dateCompleted := some now
      retriesRemaining := none
      retryInterval := none
      error := none }
  | .err e0 =>
    let t := { task with error := some (unwrapWorkerException e0) }
    match t.retriesRemaining with
    | some r =>
      if r > 0 then
        { t with
          status := TaskStatus.pending
          retriesRemaining := some (r - 1)
          dateNextProcess := some (t.dateModified + t.retryInterval.getD connRetryInterval) }
      else
        { t with
          status := TaskStatus.failed
          dateCompleted := some now
          dateNextProcess := none }
    | none =>
      { t with
        status := TaskStatus.failed
        dateCompleted := some now
        dateNextProcess := none }

/-- The record persisted by the retention block of `processTask` when it
does not remove (connector lines 776-780): `retainUntil` is computed and,
when it is an integer, `retainFor` is deleted. -/
def retentionRecord (task : BackgroundTask) : BackgroundTask :=
  let ru := calculateRetainTimestamp task
  { task with
    retainUntil := ru
    retainFor := if ru.isSome then none else task.retainFor }

/-- The retention block of `processTask` (connector lines 770-781): a
task whose `retainFor` is 0 is removed from the store, any other task is
persisted with its retain timestamp applied. -/
def retentionWrite (store : Store) (task : BackgroundTask) : Store :=
  if task.retainFor = some 0 then
    storeRemove store task.id
  else
    storeSet store (retentionRecord task)

/-- Function `processTask` (connector lines 699-810) as a store transition, for a
task with a registered handler: the processing write, the worker
invocation outcome, then the retention write. `now1` is the time of the
processing write, `now2` the completion time. -/
def processTask (connRetryInterval : Int) (store : Store) (task : BackgroundTask)
    (outcome : HandlerOutcome) (now1 now2 : Int) : Store :=
  let task1 := processingWrite task now1
  let store1 := storeSet store task1
  let task2 := applyOutcome connRetryInterval task1 outcome now2
  retentionWrite store1 task2

/-- Whether a status is one of the three completion states, in the order
the sweep condition lists them. -/
def isTerminal (s : TaskStatus) : Bool :=
  s == TaskStatus.success || s == TaskStatus.failed || s == TaskStatus.cancelled

/-- The query condition of `cleanupRetained` (connector lines 830-863):
`retainUntil > 0 AND retainUntil < now AND status in
{success, failed, cancelled}`; a record without `retainUntil` matches
neither comparison. -/
def sweepMatches (now : Int) (t : BackgroundTask) : Bool :=
  (match t.retainUntil with
   | some ru => decide (0 < ru) && decide (ru < now)
   | none => false) && isTerminal t.status

/-- Function `cleanupRetained` (connector lines 816-873): throttled by
`cleanupInterval` against `lastCleanup`; when it runs it removes every
record matching the sweep condition and updates `lastCleanup`. Returns
the new store and the new `lastCleanup`. -/
def cleanupRetained (cleanupInterval lastCleanup now : Int) (store : Store) :
    Store × Int :=
  if now - lastCleanup < cleanupInterval then (store, lastCleanup)
  else (store.filter (fun t => !sweepMatches now t), now)

/-- A scheduled task time (`IScheduledTaskTime.ts`). -/
structure IScheduledTaskTime where
  nextTriggerTime : Option Int
  intervalDays : Option Int
  intervalHours : Option Int
  intervalMinutes : Option Int

/-- Function `calculateNextTriggerTime` (scheduler lines 155-175): start from
`nextTriggerTime` (or now when empty) and add each interval that is
present. -/
def calculateNextTriggerTime (now : Int) (time : IScheduledTaskTime) : Int :=
  let t0 := time.nextTriggerTime.getD now
  let t1 := match time.intervalDays with
    | some d => t0 + d * 24 * 60 * 60 * 1000
    | none => t0
  let t2 := match time.intervalHours with
    | some h => t1 + h * 60 * 60 * 1000
    | none => t1
  match time.intervalMinutes with
  | some m => t2 + m * 60 * 1000
  | none => t2

/-- The update `triggerScheduledTasks` (scheduler lines 202-250) applies
to one schedule entry after awaiting the callback: due entries with no
interval go dormant, the rest advance by their intervals from the
previous trigger time; entries not yet due are untouched. -/
def tickUpdateTime (now : Int) (t : IScheduledTaskTime) : IScheduledTaskTime :=
  match t.nextTriggerTime with
  | some ntt =>
    if ntt ≤ now then
      if t.intervalDays.isNone && t.intervalHours.isNone && t.intervalMinutes.isNone then
        { t with nextTriggerTime := none }
      else
        { t with nextTriggerTime := some (calculateNextTriggerTime now t) }
    else t
  | none => t

/-- Function `triggerScheduledTasks` over the whole schedule table: every entry
stays in the table, each of its times updated by the tick. -/
def triggerScheduledTasks (now : Int)
    (table : List (String × List IScheduledTaskTime)) :
    List (String × List IScheduledTaskTime) :=
  table.map (fun e => (e.fst, e.snd.map (tickUpdateTime now)))

/-- Left-pad a number with zeros to the given width. -/
def padNum (width n : Nat) : String :=
  let s := toString n
  if s.length < width then
    String.mk (List.replicate (width - s.length) (Char.ofNat 48) ++ s.toList)
  else s

/-- Proleptic-Gregorian civil date from a day count relative to
1970-01-01 (the date computation underlying `Date.toISOString`). -/
def civilFromDays (z0 : Int) : Int × Nat × Nat :=
  let z := z0 + 719468
  let era := z.fdiv 146097
  let doe := (z - era * 146097).toNat
  let yoe := (doe - doe / 1460 + doe / 36524 - doe / 146096) / 365
  let y := (yoe : Int) + era * 400
  let doy := doe - (365 * yoe + yoe / 4 - yoe / 100)
  let mp := (5 * doy + 2) / 153
  let d := doy - (153 * mp + 2) / 5 + 1
  let m := if mp < 10 then mp + 3 else mp - 9
  (if m ≤ 2 then y + 1 else y, m, d)

/-- Rendering of `new Date(ms).toISOString()`: UTC date-time in the format
YYYY-MM-DDTHH:mm:ss.sssZ (expanded six-digit years outside 0..9999). -/
def toISOString (t : Int) : String :=
  let days := t.fdiv 86400000
  let msOfDay := (t - days * 86400000).toNat
  let yearMonthDay := civilFromDays days
  let y := yearMonthDay.fst
  let yearStr :=
    if y < 0 then "-" ++ padNum 6 (-y).toNat
    else if y > 9999 then "+" ++ padNum 6 y.toNat
    else padNum 4 y.toNat
  yearStr ++ "-" ++ padNum 2 yearMonthDay.snd.fst ++ "-" ++
    padNum 2 yearMonthDay.snd.snd ++ "T" ++
    padNum 2 (msOfDay / 3600000) ++ ":" ++
    padNum 2 (msOfDay / 60000 % 60) ++ ":" ++
    padNum 2 (msOfDay / 1000 % 60) ++ "." ++
    padNum 3 (msOfDay % 1000) ++ "Z"

/-- The exposed task model (`IBackgroundTask.ts`): the entity with
`retainUntil` rendered as the ISO string `dateRetainUntil`, and without
`retainFor` / `dateNextProcess`. -/
structure IBackgroundTask where
  id : String
  type : String
  dateCreated : Int
  dateModified : Int
  dateCompleted : Option Int
  dateCancelled : Option Int
  dateRetainUntil : Option String
  retryInterval : Option Int
  retriesRemaining : Option Int
  status : TaskStatus
  payload : Option Val
  result : Option Val
  error : Option IErr

/-- Function `mapEntityToModel` (connector lines 589-607): `dateRetainUntil` is
the ISO string of `retainUntil` whenever that integer is present. -/
def mapEntityToModel (task : BackgroundTask) : IBackgroundTask where
  id := task.id
  type := task.type
  dateCreated := task.dateCreated
  dateModified := task.dateModified
  dateCompleted := task.dateCompleted
  dateCancelled := task.dateCancelled
  dateRetainUntil := task.retainUntil.map toISOString
  retryInterval := task.retryInterval
  retriesRemaining := task.retriesRemaining
  status := task.status
  payload := task.payload
  result := task.result
  error := task.error

/-- The default retry interval of the connector
(`_DEFAULT_RETRY_INTERVAL`, connector line 58). -/
def DEFAULT_RETRY_INTERVAL : Int := 5000

/-- The claimed relation between `dateNextProcess` and the status of a
written record: the field is present exactly on pending and processing
records. -/
def dnpInvariant (t : BackgroundTask) : Prop :=
  t.dateNextProcess.isSome = true ↔
    (t.status = TaskStatus.pending ∨ t.status = TaskStatus.processing)

/-- A freshly created pending task used as the base of the concrete
examples below. -/
def baseTask : BackgroundTask where
  id := "0000000000000000"
  type := "my-type"
  retryInterval := none
  retriesRemaining := none
  dateCreated := 1000
  dateModified := 1000
  dateNextProcess := some 1000
  dateCancelled := none
  dateCompleted := none
  retainFor := some 0
  retainUntil := none
  status := TaskStatus.pending
  payload := none
  result := none
  error := none

/-- Pending task with the default `retainFor = 0`. -/
def c1task : BackgroundTask := { baseTask with id := "aa" }

/-- Pending task retaining its result for 10 seconds. -/
def c2task : BackgroundTask := { baseTask with id := "bb", retainFor := some 10000 }

/-- Pending task with the default `retainFor = 0` and two retries
remaining. -/
def c3task : BackgroundTask :=
  { baseTask with id := "cc", retainFor := some 0, retriesRemaining := some 2 }

/-- A plain handler error. -/
def c3err : IErr := IErr.mk "GeneralError" "Test" "test.error" none

/-- A terminal task whose retain window expired before time 1000. -/
def c4task : BackgroundTask :=
  { baseTask with
    id := "dd"
    status := TaskStatus.success
    dateNextProcess := none
    dateCompleted := some 900
    retainFor := none
    retainUntil := some 500 }

/-- A deeply nested cause. -/
def c7deep : IErr := IErr.mk "Inner2" "Deep" "deep.error" none

/-- The error of the handler itself, carrying a nested cause. -/
def c7cause : IErr := IErr.mk "GeneralError" "Test" "test.error" (some c7deep)

/-- A worker exception wrapping the handler error. -/
def c7outer : IErr :=
  IErr.mk "WorkerError" "ModuleHelper" workerExceptionMessage (some c7cause)

/-- A one-shot schedule that is due at time 2000. -/
def c9timeOneShot : IScheduledTaskTime :=
  { nextTriggerTime := some 1500
    intervalDays := none
    intervalHours := none
    intervalMinutes := none }

/-- A due schedule repeating every day and every 2 minutes. -/
def c9timeRepeat : IScheduledTaskTime :=
  { nextTriggerTime := some 1500
    intervalDays := some 1
    intervalHours := none
    intervalMinutes := some 2 }

/-- A success task retained forever. -/
def c10task : BackgroundTask :=
  { baseTask with
    id := "ff"
    status := TaskStatus.success
    dateNextProcess := none
    dateCompleted := some 900
    retainFor := none
    retainUntil := some (-1) }

/-- The record `storeSet` writes is in the resulting store. -/
theorem mem_storeSet_self (s : Store) (t : BackgroundTask) : t ∈ storeSet s t := by
  unfold storeSet
  by_cases h : s.any (fun u => u.id == t.id)
  · rw [if_pos h]
    rcases List.any_eq_true.mp h with ⟨u, hu, he⟩
    exact List.mem_map.mpr ⟨u, hu, by simp [he]⟩
  · rw [if_neg h]
    simp

/-- Function `applyOutcome` never changes the task id. -/
theorem applyOutcome_id (c : Int) (t : BackgroundTask) (o : HandlerOutcome) (n : Int) :
    (applyOutcome c t o n).id = t.id := by
  unfold applyOutcome
  cases o with
  | ok r => rfl
  | err e =>
    simp only
    cases t.retriesRemaining with
    | some r =>
      by_cases h : r > 0
      · simp [h]
      · simp [h]
    | none => rfl

/-- Function `applyOutcome` never changes `retainFor`. -/
theorem applyOutcome_retainFor (c : Int) (t : BackgroundTask) (o : HandlerOutcome) (n : Int) :
    (applyOutcome c t o n).retainFor = t.retainFor := by
  unfold applyOutcome
  cases o with
  | ok r => rfl
  | err e =>
    simp only
    cases t.retriesRemaining with
    | some r =>
      by_cases h : r > 0
      · simp [h]
      · simp [h]
    | none => rfl

/-- The sweep condition holds exactly on terminal tasks with
`0 < retainUntil < now`. -/
theorem sweepMatches_iff (now : Int) (t : BackgroundTask) :
    sweepMatches now t = true ↔
      (isTerminal t.status = true ∧ ∃ ru, t.retainUntil = some ru ∧ 0 < ru ∧ ru < now) := by
  unfold sweepMatches
  cases h : t.retainUntil with
  | some ru => simp [h, and_comm, and_assoc]
  | none => simp [h]

/-- A record in the store left by `storeRemove` never carries the
removed id. -/
theorem mem_storeRemove_ne (s : Store) (id : String) (u : BackgroundTask)
    (hu : u ∈ storeRemove s id) : u.id ≠ id := by
  unfold storeRemove at hu
  have h2 := (List.mem_filter.mp hu).2
  simpa using h2

/-- With `retainFor = 0` the whole of `processTask` ends in a removal of
the task id. -/
theorem processTask_retainFor_zero (c : Int) (store : Store) (task : BackgroundTask)
    (o : HandlerOutcome) (n1 n2 : Int) (hrf : task.retainFor = some 0) :
    processTask c store task o n1 n2 =
      storeRemove (storeSet store (processingWrite task n1)) task.id := by
  unfold processTask retentionWrite
  have hrf2 : (applyOutcome c (processingWrite task n1) o n2).retainFor = some 0 := by
    rw [applyOutcome_retainFor]
    exact hrf
  rw [if_pos hrf2, applyOutcome_id]
  rfl

/-- The retain timestamp is present exactly on terminal tasks whose
`retainFor` is a nonzero value at least -1. -/
theorem calcRetain_isSome_iff (t : BackgroundTask)
    (hvalid : ∀ k, t.retainFor = some k → -1 ≤ k) :
    (calculateRetainTimestamp t).isSome = true ↔
      ((t.status = TaskStatus.success ∨ t.status = TaskStatus.cancelled ∨
          t.status = TaskStatus.failed) ∧
        ∃ k, t.retainFor = some k ∧ k ≠ 0) := by
  unfold calculateRetainTimestamp
  by_cases hst : t.status = TaskStatus.success ∨ t.status = TaskStatus.cancelled ∨
      t.status = TaskStatus.failed
  · rw [if_pos hst]
    cases hrf : t.retainFor with
    | some k =>
      dsimp only
      by_cases hk : k > 0
      · rw [if_pos hk]
        exact ⟨fun _ => ⟨hst, k, rfl, by omega⟩, fun _ => rfl⟩
      · by_cases hk1 : k = -1
        · rw [if_neg hk, if_pos hk1]
          exact ⟨fun _ => ⟨hst, k, rfl, by omega⟩, fun _ => rfl⟩
        · have hk0 : k = 0 := by
            have := hvalid k hrf
            omega
          subst hk0
          rw [if_neg hk, if_neg hk1]
          constructor
          · intro h
            simp at h
          · rintro ⟨_, k2, hk2, hne⟩
            injection hk2 with h2
            exact absurd h2.symm hne
    | none => simp
  · rw [if_neg hst]
    constructor
    · intro h
      simp at h
    · rintro ⟨h1, _⟩
      exact absurd h1 hst

/-- C5: the source computation agrees with the spec case analysis. -/
theorem c5_calculate_retain_timestamp (task : BackgroundTask) :
    calculateRetainTimestamp task = specRetainTimestamp task := by
  unfold calculateRetainTimestamp specRetainTimestamp
  rcases task with ⟨_, _, _, _, _, _, _, _, _, rf, _, st, _, _, _⟩
  cases st <;> cases rf <;> simp

/-- C1 counterexample: cancelling a pending task with `retainFor = 0`
leaves the record in the store — cancelled (terminal), with
`retainFor = 0` — contradicting the claimed absence after the
terminal-state write. -/
theorem c1_counterexample :
    ((cancel [c1task] "aa" 2000).find? (fun u => u.id == "aa")).map
        (fun u => (u.status == TaskStatus.cancelled, u.retainFor)) =
      some (true, some 0) := by
  rfl

/-- C1 (amended): a task reaching the retention write of `processTask` with
`retainFor = 0` is removed — no record with its id remains. The cancel
operation, however, always persists the cancelled record: with
`retainFor = 0` it stays in the store with `retainUntil` unset. -/
theorem c1_retain_zero_removal :
    (∀ (c : Int) (store : Store) (task : BackgroundTask) (o : HandlerOutcome)
      (n1 n2 : Int), task.retainFor = some 0 →
      ∀ u ∈ processTask c store task o n1 n2, u.id ≠ task.id) ∧
    (∀ (store : Store) (id : String) (now : Int) (task : BackgroundTask),
      storeGet store id = some task → task.status = TaskStatus.pending →
      task.retainFor = some 0 →
      cancel store id now = storeSet store (cancelRecord task now) ∧
      cancelRecord task now ∈ cancel store id now ∧
      (cancelRecord task now).retainUntil = none ∧
      (cancelRecord task now).retainFor = some 0) := by
  constructor
  · intro c store task o n1 n2 hrf u hu
    rw [processTask_retainFor_zero c store task o n1 n2 hrf] at hu
    exact mem_storeRemove_ne _ _ _ hu
  · intro store id now task hget hst hrf
    have hc : cancel store id now = storeSet store (cancelRecord task now) := by
      unfold cancel
      rw [hget]
      simp only [hst, if_pos]
    refine ⟨hc, ?_, ?_, ?_⟩
    · rw [hc]
      exact mem_storeSet_self _ _
    · rw [show (cancelRecord task now).retainUntil = calculateRetainTimestamp
        { task with
          status := TaskStatus.cancelled
          dateCancelled := some now
          dateNextProcess := none } from rfl]
      unfold calculateRetainTimestamp
      rw [if_pos (Or.inr (Or.inl rfl))]
      rw [show ({ task with
          status := TaskStatus.cancelled
          dateCancelled := some now
          dateNextProcess := none } : BackgroundTask).retainFor = task.retainFor from rfl]
      rw [hrf]
      simp
    · exact hrf

/-- C1 witness: the cancel half at a concrete pending task with
`retainFor = 0`: the cancelled record is persisted (present in the
store) with no retain timestamp. -/
theorem c1_witness :
    storeGet [c1task] "aa" = some c1task ∧
    (cancelRecord c1task 2000).retainUntil = none ∧
    cancelRecord c1task 2000 ∈ cancel [c1task] "aa" 2000 :=
  ⟨rfl,
    (c1_retain_zero_removal.2 [c1task] "aa" 2000 c1task rfl rfl rfl).2.2.1,
    (c1_retain_zero_removal.2 [c1task] "aa" 2000 c1task rfl rfl rfl).2.1⟩

/-- C2 counterexample: cancelling a pending task with
`retainFor = 10000` persists a record carrying both
`retainUntil = 11000` and `retainFor = 10000` — `retainFor` is not
cleared although `retainUntil` is set. -/
theorem c2_counterexample :
    ((cancel [c2task] "bb" 2000).find? (fun u => u.id == "bb")).map
        (fun u => (u.retainUntil, u.retainFor)) =
      some (some 11000, some 10000) := by
  rfl

/-- C2 (amended): on the retention write of `processTask` the claim holds for
API-reachable `retainFor` values (at least -1): `retainUntil` is set iff
the task is terminal with `retainFor` present and nonzero, and whenever
it is set `retainFor` is cleared. `cancel` sets `retainUntil` under the
same condition but leaves `retainFor` untouched on the persisted
record. -/
theorem c2_retain_until_discipline :
    (∀ (s : Store) (t : BackgroundTask), t.retainFor ≠ some 0 →
      retentionWrite s t = storeSet s (retentionRecord t)) ∧
    (∀ t : BackgroundTask, (∀ k, t.retainFor = some k → -1 ≤ k) →
      (((retentionRecord t).retainUntil).isSome = true ↔
        ((t.status = TaskStatus.success ∨ t.status = TaskStatus.cancelled ∨
            t.status = TaskStatus.failed) ∧
          ∃ k, t.retainFor = some k ∧ k ≠ 0))) ∧
    (∀ t : BackgroundTask, ((retentionRecord t).retainUntil).isSome = true →
      (retentionRecord t).retainFor = none) ∧
    (∀ (task : BackgroundTask) (now : Int), (∀ k, task.retainFor = some k → -1 ≤ k) →
      ((((cancelRecord task now).retainUntil).isSome = true ↔
          ∃ k, task.retainFor = some k ∧ k ≠ 0) ∧
        (cancelRecord task now).retainFor = task.retainFor)) := by
  refine ⟨?_, ?_, ?_, ?_⟩
  · intro s t h
    unfold retentionWrite
    rw [if_neg h]
  · intro t hvalid
    rw [show (retentionRecord t).retainUntil = calculateRetainTimestamp t from rfl]
    exact calcRetain_isSome_iff t hvalid
  · intro t h
    rw [show (retentionRecord t).retainUntil = calculateRetainTimestamp t from rfl] at h
    rw [show (retentionRecord t).retainFor =
      (if (calculateRetainTimestamp t).isSome then none else t.retainFor) from rfl]
    rw [h]
    simp
  · intro task now hvalid
    constructor
    · rw [show (cancelRecord task now).retainUntil = calculateRetainTimestamp
        { task with
          status := TaskStatus.cancelled
          dateCancelled := some now
          dateNextProcess := none } from rfl]
      rw [calcRetain_isSome_iff
        { task with
          status := TaskStatus.cancelled
          dateCancelled := some now
          dateNextProcess := none } (fun k hk => hvalid k hk)]
      simp
    · rfl

/-- C2 witness: the cancel half at a concrete pending task retaining for
10 seconds: the cancelled record gets a retain timestamp while its
`retainFor` field is unchanged. -/
theorem c2_witness :
    ((cancelRecord c2task 2000).retainUntil).isSome = true ∧
    (cancelRecord c2task 2000).retainFor = c2task.retainFor := by
  have h := c2_retain_until_discipline.2.2.2 c2task 2000
    (by
      intro k hk
      rw [show c2task.retainFor = some 10000 from rfl] at hk
      cases hk
      omega)
  exact ⟨h.1.mpr ⟨10000, rfl, by omega⟩, h.2⟩

/-- C3 counterexample: a handler error on a task with two retries
remaining but the default `retainFor = 0` does not persist the pending
retry — the retention block removes the record and the store ends
empty. -/
theorem c3_counterexample :
    processTask DEFAULT_RETRY_INTERVAL [c3task] c3task (HandlerOutcome.err c3err)
        1500 2000 = [] ∧
    storeGet (processTask DEFAULT_RETRY_INTERVAL [c3task] c3task
        (HandlerOutcome.err c3err) 1500 2000) "cc" = none := by
  constructor <;> rfl

/-- C3 (amended): on a handler error, a positive integer
`retriesRemaining` yields status pending, the counter decremented and
`dateNextProcess = dateModified + (retryInterval or the connector
fallback)`; otherwise — including an absent counter — status failed,
`dateCompleted = now` and no `dateNextProcess`. The resulting record is
persisted by the retention write only when `retainFor` is not 0; with
`retainFor = 0` it is removed from the store instead. -/
theorem c3_error_retry :
    (∀ (c : Int) (t : BackgroundTask) (e : IErr) (n r : Int),
      t.retriesRemaining = some r → 0 < r →
      applyOutcome c t (HandlerOutcome.err e) n =
        { t with
          error := some (unwrapWorkerException e)
          status := TaskStatus.pending
          retriesRemaining := some (r - 1)
          dateNextProcess := some (t.dateModified + t.retryInterval.getD c) }) ∧
    (∀ (c : Int) (t : BackgroundTask) (e : IErr) (n : Int),
      t.retriesRemaining = none →
      applyOutcome c t (HandlerOutcome.err e) n =
        { t with
          error := some (unwrapWorkerException e)
          status := TaskStatus.failed
          dateCompleted := some n
          dateNextProcess := none }) ∧
    (∀ (c : Int) (t : BackgroundTask) (e : IErr) (n r : Int),
      t.retriesRemaining = some r → ¬ 0 < r →
      applyOutcome c t (HandlerOutcome.err e) n =
        { t with
          error := some (unwrapWorkerException e)
          status := TaskStatus.failed
          dateCompleted := some n
          dateNextProcess := none }) ∧
    (∀ (s : Store) (t : BackgroundTask), t.retainFor = some 0 →
      retentionWrite s t = storeRemove s t.id) ∧
    (∀ (s : Store) (t : BackgroundTask), t.retainFor ≠ some 0 →
      retentionWrite s t = storeSet s (retentionRecord t)) := by
  refine ⟨?_, ?_, ?_, ?_, ?_⟩
  · intro c t e n r hrr hr
    unfold applyOutcome
    simp only [hrr]
    rw [if_pos hr]
  · intro c t e n hrr
    unfold applyOutcome
    simp only [hrr]
  · intro c t e n r hrr hr
    unfold applyOutcome
    simp only [hrr]
    rw [if_neg hr]
  · intro s t h
    unfold retentionWrite
    rw [if_pos h]
  · intro s t h
    unfold retentionWrite
    rw [if_neg h]

/-- C3 witness: the retry branch at a concrete failing task with two
retries remaining, no custom retry interval, and the default connector
fallback of 5000 ms. -/
theorem c3_witness :
    (processingWrite c3task 1500).retriesRemaining = some 2 ∧
    applyOutcome DEFAULT_RETRY_INTERVAL (processingWrite c3task 1500)
        (HandlerOutcome.err c3err) 2000 =
      { processingWrite c3task 1500 with
        error := some (unwrapWorkerException c3err)
        status := TaskStatus.pending
        retriesRemaining := some (2 - 1)
        dateNextProcess := some ((processingWrite c3task 1500).dateModified +
          (processingWrite c3task 1500).retryInterval.getD DEFAULT_RETRY_INTERVAL) } :=
  ⟨rfl,
    c3_error_retry.1 DEFAULT_RETRY_INTERVAL (processingWrite c3task 1500) c3err 2000 2
      rfl (by omega)⟩

/-- C4: when the sweep actually runs (not throttled), it deletes a
stored task iff its status is terminal and `0 < retainUntil < now`; in
particular `retainUntil = now` and `retainUntil = -1` are both kept. -/
theorem c4_sweep_characterization (ci lc now : Int) (store : Store)
    (hrun : ¬ now - lc < ci) (t : BackgroundTask) (ht : t ∈ store) :
    (t ∉ (cleanupRetained ci lc now store).fst ↔
      (isTerminal t.status = true ∧
        ∃ ru, t.retainUntil = some ru ∧ 0 < ru ∧ ru < now)) ∧
    (t.retainUntil = some now → t ∈ (cleanupRetained ci lc now store).fst) ∧
    (t.retainUntil = some (-1) → t ∈ (cleanupRetained ci lc now store).fst) := by
  have hstore : (cleanupRetained ci lc now store).fst =
      store.filter (fun u => !sweepMatches now u) := by
    unfold cleanupRetained
    rw [if_neg hrun]
  have hmem : t ∈ (cleanupRetained ci lc now store).fst ↔ ¬ sweepMatches now t = true := by
    rw [hstore, List.mem_filter]
    simp [ht]
  refine ⟨?_, ?_, ?_⟩
  · rw [hmem, not_not]
    exact sweepMatches_iff now t
  · intro hru
    rw [hmem]
    intro hsw
    rcases (sweepMatches_iff now t).mp hsw with ⟨_, ru, hru2, _, hlt⟩
    rw [hru] at hru2
    injection hru2 with h2
    omega
  · intro hru
    rw [hmem]
    intro hsw
    rcases (sweepMatches_iff now t).mp hsw with ⟨_, ru, hru2, h0, _⟩
    rw [hru] at hru2
    injection hru2 with h2
    omega

/-- C4 witness: a concrete success task with `retainUntil = 500` against
an unthrottled sweep at time 1000. -/
theorem c4_witness :
    (¬ (1000 : Int) - 0 < 100) ∧ c4task ∈ [c4task] ∧
    (c4task ∉ (cleanupRetained 100 0 1000 [c4task]).fst ↔
      (isTerminal c4task.status = true ∧
        ∃ ru, c4task.retainUntil = some ru ∧ 0 < ru ∧ ru < 1000)) :=
  ⟨by omega, List.mem_singleton.mpr rfl,
    (c4_sweep_characterization 100 0 1000 [c4task] (by omega) c4task
      (List.mem_singleton.mpr rfl)).1⟩

/-- C6: every record the connector operations write satisfies
"`dateNextProcess` present iff status is pending or processing": the
create record, the processing write (for a selected task, which has the
field set), the outcome record, the retention record (which never
touches status or `dateNextProcess`), the cancel record and the retry
record. -/
theorem c6_date_next_process_invariant :
    (∀ (id ty : String) (p : Option Val) (rc ri rf : Option Int) (now : Int),
      dnpInvariant (createRecord id ty p rc ri rf now)) ∧
    (∀ (t : BackgroundTask) (n : Int), t.dateNextProcess.isSome = true →
      dnpInvariant (processingWrite t n)) ∧
    (∀ (c : Int) (t : BackgroundTask) (o : HandlerOutcome) (n : Int),
      dnpInvariant (applyOutcome c t o n)) ∧
    (∀ t : BackgroundTask, dnpInvariant t → dnpInvariant (retentionRecord t)) ∧
    (∀ (t : BackgroundTask) (n : Int), dnpInvariant (cancelRecord t n)) ∧
    (∀ (t : BackgroundTask) (n : Int), t.status = TaskStatus.pending →
      dnpInvariant (retryRecord t n)) := by
  refine ⟨?_, ?_, ?_, ?_, ?_, ?_⟩
  · intro id ty p rc ri rf now
    unfold dnpInvariant createRecord
    simp
  · intro t n h
    unfold dnpInvariant processingWrite
    simp [h]
  · intro c t o n
    unfold dnpInvariant applyOutcome
    cases o with
    | ok r => simp
    | err e =>
      dsimp only
      cases t.retriesRemaining with
      | some r =>
        by_cases h : r > 0
        · simp [h]
        · simp [h]
      | none => simp
  · intro t h
    exact h
  · intro t n
    unfold dnpInvariant cancelRecord
    simp
  · intro t n h
    unfold dnpInvariant retryRecord
    simp [h]

/-- C6 witness: the processing write on a concrete pending task. -/
theorem c6_witness :
    baseTask.dateNextProcess.isSome = true ∧
    dnpInvariant (processingWrite baseTask 1500) :=
  ⟨rfl, c6_date_next_process_invariant.2.1 baseTask 1500 rfl⟩

/-- C7: when the caught error is a worker exception carrying an inner
cause, exactly that inner cause — verbatim, with any deeper nesting —
becomes the stored error; in every other case the error is stored
unchanged; and the stored `task.error` is always the (possibly
unwrapped) caught error. -/
theorem c7_worker_exception_unwrap :
    (∀ e i : IErr, e.message = workerExceptionMessage → e.inner = some i →
      unwrapWorkerException e = i) ∧
    (∀ e : IErr, e.message ≠ workerExceptionMessage → unwrapWorkerException e = e) ∧
    (∀ e : IErr, e.inner = none → unwrapWorkerException e = e) ∧
    (∀ (c : Int) (t : BackgroundTask) (e : IErr) (n : Int),
      (applyOutcome c t (HandlerOutcome.err e) n).error =
        some (unwrapWorkerException e)) := by
  refine ⟨?_, ?_, ?_, ?_⟩
  · intro e i hm hi
    unfold unwrapWorkerException
    rw [if_pos ⟨hm, by rw [hi]; rfl⟩]
    rw [hi]
    rfl
  · intro e hm
    unfold unwrapWorkerException
    rw [if_neg (fun h => hm h.1)]
  · intro e hi
    unfold unwrapWorkerException
    rw [if_neg (fun h => by rw [hi] at h; exact absurd h.2 (by simp))]
  · intro c t e n
    unfold applyOutcome
    dsimp only
    cases t.retriesRemaining with
    | some r =>
      by_cases h : r > 0
      · simp [h]
      · simp [h]
    | none => rfl

/-- C7 witness: a concrete worker exception wrapping a handler error
which itself nests a deeper cause: one level is unwrapped and the deep
cause survives untouched. -/
theorem c7_witness :
    c7outer.message = workerExceptionMessage ∧ c7outer.inner = some c7cause ∧
    unwrapWorkerException c7outer = c7cause ∧
    (unwrapWorkerException c7outer).inner = some c7deep :=
  ⟨rfl, rfl, c7_worker_exception_unwrap.1 c7outer c7cause rfl rfl,
    by
      rw [c7_worker_exception_unwrap.1 c7outer c7cause rfl rfl]
      rfl⟩

/-- C8: `retry` acts exactly on a stored pending task with
`dateNextProcess` set, persisting it with `dateNextProcess := now` and
every other field unchanged; in all other cases the store is returned
untouched. -/
theorem c8_retry_only_pending :
    (∀ (s : Store) (id : String) (now : Int) (t : BackgroundTask),
      storeGet s id = some t → t.status = TaskStatus.pending →
      t.dateNextProcess.isSome = true →
      retry s id now = storeSet s (retryRecord t now) ∧
      retryRecord t now = { t with dateNextProcess := some now }) ∧
    (∀ (s : Store) (id : String) (now : Int),
      storeGet s id = none → retry s id now = s) ∧
    (∀ (s : Store) (id : String) (now : Int) (t : BackgroundTask),
      storeGet s id = some t → t.status ≠ TaskStatus.pending →
      retry s id now = s) ∧
    (∀ (s : Store) (id : String) (now : Int) (t : BackgroundTask),
      storeGet s id = some t → t.dateNextProcess = none →
      retry s id now = s) := by
  refine ⟨?_, ?_, ?_, ?_⟩
  · intro s id now t hget hst hdnp
    constructor
    · unfold retry
      rw [hget]
      dsimp only
      rw [if_pos ⟨hdnp, hst⟩]
    · rfl
  · intro s id now hget
    unfold retry
    rw [hget]
  · intro s id now t hget hst
    unfold retry
    rw [hget]
    dsimp only
    rw [if_neg (fun h => hst h.2)]
  · intro s id now t hget hdnp
    unfold retry
    rw [hget]
    dsimp only
    rw [if_neg (fun h => by
      have h1 := h.1
      rw [hdnp] at h1
      exact absurd h1 (by simp))]

/-- C8 witness: retrying a concrete stored pending task moves only its
`dateNextProcess` to the current time. -/
theorem c8_witness :
    storeGet [baseTask] "0000000000000000" = some baseTask ∧
    retry [baseTask] "0000000000000000" 2000 =
      storeSet [baseTask] (retryRecord baseTask 2000) :=
  ⟨rfl,
    (c8_retry_only_pending.1 [baseTask] "0000000000000000" 2000 baseTask
      rfl rfl rfl).1⟩

/-- C9: a due schedule entry with no intervals goes dormant
(`nextTriggerTime := none`), a due entry with intervals advances by
`intervalDays` days plus `intervalHours` hours plus `intervalMinutes`
minutes from its previous trigger time, and the tick never removes an
entry from the table. -/
theorem c9_scheduler_tick :
    (∀ (now : Int) (t : IScheduledTaskTime) (p : Int),
      t.nextTriggerTime = some p → p ≤ now →
      t.intervalDays = none → t.intervalHours = none → t.intervalMinutes = none →
      tickUpdateTime now t = { t with nextTriggerTime := none }) ∧
    (∀ (now : Int) (t : IScheduledTaskTime) (p : Int),
      t.nextTriggerTime = some p → p ≤ now →
      ¬(t.intervalDays = none ∧ t.intervalHours = none ∧ t.intervalMinutes = none) →
      (tickUpdateTime now t).nextTriggerTime =
        some (p + t.intervalDays.getD 0 * 86400000 + t.intervalHours.getD 0 * 3600000 +
          t.intervalMinutes.getD 0 * 60000)) ∧
    (∀ (now : Int) (table : List (String × List IScheduledTaskTime)),
      (triggerScheduledTasks now table).map Prod.fst = table.map Prod.fst) := by
  refine ⟨?_, ?_, ?_⟩
  · intro now t p hp hle hd hh hm
    unfold tickUpdateTime
    rw [hp]
    dsimp only
    rw [if_pos hle]
    rw [if_pos (by rw [hd, hh, hm]; rfl)]
  · intro now t p hp hle hnone
    rcases t with ⟨ntt, dOpt, hOpt, mOpt⟩
    simp only at hp
    subst hp
    unfold tickUpdateTime calculateNextTriggerTime
    dsimp only
    rw [if_pos hle]
    cases dOpt with
    | none =>
      cases hOpt with
      | none =>
        cases mOpt with
        | none => exact absurd ⟨rfl, rfl, rfl⟩ hnone
        | some m =>
          rw [if_neg (by simp)]
          dsimp only
          simp only [Option.some.injEq, Option.getD_some, Option.getD_none]
          omega
      | some h =>
        cases mOpt with
        | none =>
          rw [if_neg (by simp)]
          dsimp only
          simp only [Option.some.injEq, Option.getD_some, Option.getD_none]
          omega
        | some m =>
          rw [if_neg (by simp)]
          dsimp only
          simp only [Option.some.injEq, Option.getD_some, Option.getD_none]
          omega
    | some d =>
      cases hOpt with
      | none =>
        cases mOpt with
        | none =>
          rw [if_neg (by simp)]
          dsimp only
          simp only [Option.some.injEq, Option.getD_some, Option.getD_none]
          omega
        | some m =>
          rw [if_neg (by simp)]
          dsimp only
          simp only [Option.some.injEq, Option.getD_some, Option.getD_none]
          omega
      | some h =>
        cases mOpt with
        | none =>
          rw [if_neg (by simp)]
          dsimp only
          simp only [Option.some.injEq, Option.getD_some, Option.getD_none]
          omega
        | some m =>
          rw [if_neg (by simp)]
          dsimp only
          simp only [Option.some.injEq, Option.getD_some, Option.getD_none]
          omega
  · intro now table
    unfold triggerScheduledTasks
    rw [List.map_map]
    rfl

/-- C9 witness: a concrete due schedule repeating daily plus every two
minutes advances from its previous trigger time by exactly one day and
two minutes. -/
theorem c9_witness :
    c9timeRepeat.nextTriggerTime = some 1500 ∧
    (tickUpdateTime 2000 c9timeRepeat).nextTriggerTime =
      some (1500 + c9timeRepeat.intervalDays.getD 0 * 86400000 +
        c9timeRepeat.intervalHours.getD 0 * 3600000 +
        c9timeRepeat.intervalMinutes.getD 0 * 60000) :=
  ⟨rfl,
    c9_scheduler_tick.2.1 2000 c9timeRepeat 1500 rfl (by omega)
      (fun h => by
        have h1 := h.1
        rw [show c9timeRepeat.intervalDays = some 1 from rfl] at h1
        cases h1)⟩

/-- C10: a stored task with the retain-forever sentinel
`retainUntil = -1` is mapped to a view whose `dateRetainUntil` is
present and equals the ISO-8601 rendering of epoch millisecond -1. -/
theorem c10_retain_forever_view (task : BackgroundTask)
    (h : task.retainUntil = some (-1)) :
    (mapEntityToModel task).dateRetainUntil = some "1969-12-31T23:59:59.999Z" ∧
    (mapEntityToModel task).dateRetainUntil ≠ none := by
  have h1 : (mapEntityToModel task).dateRetainUntil = some (toISOString (-1)) := by
    rw [show (mapEntityToModel task).dateRetainUntil =
      task.retainUntil.map toISOString from rfl]
    rw [h]
    rfl
  rw [h1]
  exact ⟨congrArg some (by decide), by simp⟩

/-- C10 witness: the concrete retained-forever success task. -/
theorem c10_witness :
    c10task.retainUntil = some (-1) ∧
    (mapEntityToModel c10task).dateRetainUntil =
      some "1969-12-31T23:59:59.999Z" :=
  ⟨rfl, (c10_retain_forever_view c10task rfl).1⟩

end BackgroundTaskSpec
